import Mathlib

/-!
Verification of the ASEAN carbon simulator's computation core (app.py).

The numeric model uses exact rationals (ℚ) for Python's arithmetic, integers
(ℤ) for years, and `Option` for computations that can raise at runtime
(Python's `max`/`min` on an empty sequence).  Each definition mirrors one
function or code block of `app.py`; line references are given in the doc
comments.
-/

namespace AseanCarbon

/-- The five countries of `COUNTRY_DATA` (app.py lines 165-236), in the
dictionary's insertion order. -/
inductive Country
  | Singapore
  | Thailand
  | Indonesia
  | Malaysia
  | Vietnam
deriving DecidableEq, Repr

/-- The numeric attributes of a `COUNTRY_DATA` record that the computation
core reads (app.py lines 165-236).  The presentation-only fields (flag,
status label, liability headline numbers) are omitted. -/
structure CountryData where
  capacity_kbpd : ℚ
  govt_ownership : ℚ
  carbon_price_2024 : ℚ
  carbon_price_2030 : ℚ
  ets_launch_year : ℤ
  coverage_pct : ℚ
deriving DecidableEq, Repr

/-- `COUNTRY_DATA` (app.py lines 165-236). -/
def COUNTRY_DATA : Country → CountryData
  | .Singapore => ⟨1512, 13/100, 59, 75, 2019, 80⟩
  | .Thailand => ⟨1240, 36/100, 35, 50, 2025, 60⟩
  | .Indonesia => ⟨1050, 1, 25, 35, 2023, 50⟩
  | .Malaysia => ⟨612, 80/100, 0, 15, 2030, 30⟩
  | .Vietnam => ⟨346, 71/100, 20, 40, 2028, 45⟩

/-- The countries in the order of `COUNTRY_DATA.values()` (Python dicts keep
insertion order). -/
def country_list : List Country :=
  [.Singapore, .Thailand, .Indonesia, .Malaysia, .Vietnam]

/-- Annual emissions in million tonnes for a country: capacity × 1000 barrels
× 0.14 tCO2/barrel × 365 days / 10^6, exactly as computed in
`calculate_carbon_liability` (app.py lines 417-423) and again in the Tab 2
calculator (app.py lines 815-817). -/
def annual_emissions_mt (c : Country) : ℚ :=
  (COUNTRY_DATA c).capacity_kbpd * 1000 * (14/100) * 365 / 1000000

/-- `calculate_carbon_liability` (app.py lines 412-433): NPV in billions of
dollars of a country's carbon cost over `years` years, with a fixed 3%
annual price escalation and no coverage factor.  The Python loop
`for year in range(years)` accumulating into `npv` is a left fold over
`List.range years`. -/
def calculate_carbon_liability (country : Country) (carbon_price : ℚ)
    (years : ℕ) (discount_rate : ℚ) : ℚ :=
  let annual_emissions := annual_emissions_mt country
  let npv := (List.range years).foldl
    (fun npv year =>
      let price := carbon_price * (103/100) ^ year
      let annual_cost := annual_emissions * price * 1000000
      npv + annual_cost / ((1 + discount_rate) ^ year)) 0
  npv / 1000000000

/-- The Tab 2 NPV loop (app.py lines 820-837): the liability calculation
with the escalation rate and the coverage both taken from the call's
parameters, given in percent as the sliders supply them.  Returns the NPV
in dollars (`npv_liability` before the final division by 10^9). -/
def npv_liability_loop (country : Country) (base_carbon_price : ℚ)
    (price_escalation : ℚ) (coverage : ℚ) (analysis_years : ℕ)
    (discount_rate : ℚ) : ℚ :=
  (List.range analysis_years).foldl
    (fun npv year =>
      let price := base_carbon_price * ((1 + price_escalation / 100) ^ year)
      let covered_emissions := annual_emissions_mt country * (coverage / 100)
      let annual_cost := covered_emissions * price * 1000000
      let discounted_cost := annual_cost / ((1 + discount_rate) ^ year)
      npv + discounted_cost) 0

/-- A left fold that only accumulates additions over `List.range n` is the
corresponding finite sum. -/
lemma foldl_add_range (f : ℕ → ℚ) (n : ℕ) (init : ℚ) :
    (List.range n).foldl (fun a t => a + f t) init
      = init + ∑ t ∈ Finset.range n, f t := by
  induction n with
  | zero => simp
  | succ m ih =>
      rw [List.range_succ, List.foldl_append, ih, Finset.sum_range_succ]
      simp [add_assoc]

/-- Every country's capacity is positive. -/
lemma capacity_pos (c : Country) : 0 < (COUNTRY_DATA c).capacity_kbpd := by
  cases c <;> norm_num [COUNTRY_DATA]

/-- Every country's annual emissions figure is positive. -/
lemma annual_emissions_mt_pos (c : Country) : 0 < annual_emissions_mt c := by
  have h := capacity_pos c
  unfold annual_emissions_mt
  positivity

/-- `calculate_carbon_liability` as a closed-form sum: the fold over the
years is the sum of the per-year discounted costs, divided by 10^9. -/
lemma calculate_carbon_liability_eq_sum (country : Country) (p : ℚ) (h : ℕ)
    (d : ℚ) :
    calculate_carbon_liability country p h d
      = (∑ t ∈ Finset.range h,
          annual_emissions_mt country * (p * (103/100) ^ t) * 1000000
            / (1 + d) ^ t) / 1000000000 := by
  unfold calculate_carbon_liability
  show (List.range h).foldl
      (fun npv year =>
        npv + annual_emissions_mt country * (p * (103/100) ^ year) * 1000000
          / (1 + d) ^ year) 0 / 1000000000 = _
  rw [foldl_add_range (fun t =>
    annual_emissions_mt country * (p * (103/100) ^ t) * 1000000
      / (1 + d) ^ t), zero_add]

/-- C1: the Tab 2 NPV loop, called with escalation rate `e` and coverage
fraction `c` (the sliders supply them as percentages `100 * e` and
`100 * c`), returns exactly the sum over years t = 0..h-1 of covered annual
emissions (annual emissions × c, converted to tonnes by the 10^6 factor)
times the escalated nominal price basePrice * (1+e)^t, discounted by
(1+d)^t only after escalation. -/
theorem npv_loop_closed_form (country : Country) (basePrice e c d : ℚ)
    (h : ℕ) (_hc0 : 0 ≤ c) (_hc1 : c ≤ 1) (_hd : -1 < d) (_hh : 1 ≤ h) :
    npv_liability_loop country basePrice (100 * e) (100 * c) h d
      = ∑ t ∈ Finset.range h,
          annual_emissions_mt country * 1000000 * c
            * (basePrice * (1 + e) ^ t) / (1 + d) ^ t := by
  unfold npv_liability_loop
  show (List.range h).foldl
      (fun npv year =>
        npv + annual_emissions_mt country * (100 * c / 100)
          * (basePrice * (1 + 100 * e / 100) ^ year) * 1000000
          / (1 + d) ^ year) 0 = _
  rw [foldl_add_range (fun t =>
    annual_emissions_mt country * (100 * c / 100)
      * (basePrice * (1 + 100 * e / 100) ^ t) * 1000000 / (1 + d) ^ t),
    zero_add]
  refine Finset.sum_congr rfl fun t _ => ?_
  have hbase : (1 : ℚ) + 100 * e / 100 = 1 + e := by ring
  rw [hbase]
  ring

/-- Closed witness for `npv_loop_closed_form` at Singapore, basePrice 59,
e = 0.03, c = 0.8, d = 0.05, h = 25. -/
theorem npv_loop_closed_form_witness :
    npv_liability_loop Country.Singapore 59 (100 * (3/100)) (100 * (4/5))
        25 (1/20)
      = ∑ t ∈ Finset.range 25,
          annual_emissions_mt Country.Singapore * 1000000 * (4/5)
            * (59 * (1 + 3/100) ^ t) / (1 + 1/20) ^ t :=
  npv_loop_closed_form Country.Singapore 59 (3/100) (4/5) (1/20) 25
    (by norm_num) (by norm_num) (by norm_num) (by norm_num)

/-- C2 counterexample: at horizon 1 the NPV does not depend on the discount
rate at all (the single year-0 cost is divided by (1+d)^0 = 1), so for
d1 = 0.05 < d2 = 0.06 the two NPVs are equal, refuting strict decrease for
every horizon h ≥ 1. -/
theorem liability_not_strictly_decreasing_at_horizon_one :
    (1/20 : ℚ) < 6/100 ∧ (-1 : ℚ) < 1/20 ∧
    calculate_carbon_liability Country.Singapore 59 1 (1/20)
      = calculate_carbon_liability Country.Singapore 59 1 (6/100) := by
  refine ⟨by norm_num, by norm_num, ?_⟩
  norm_num [calculate_carbon_liability, annual_emissions_mt, COUNTRY_DATA,
    List.range_succ, List.range_zero]

/-- C2 (amended): for every country, price p ≥ 0, horizon h and discount
rates -1 < d1 < d2, the NPV is non-negative and non-increasing in the
discount rate; it is strictly decreasing as soon as the horizon is at
least 2 and the price is strictly positive. -/
theorem liability_nonneg_and_antitone (country : Country) (p : ℚ) (h : ℕ)
    (d1 d2 : ℚ) (hp : 0 ≤ p) (hd1 : -1 < d1) (h12 : d1 < d2) :
    0 ≤ calculate_carbon_liability country p h d1 ∧
    calculate_carbon_liability country p h d2
      ≤ calculate_carbon_liability country p h d1 ∧
    (2 ≤ h → 0 < p →
      calculate_carbon_liability country p h d2
        < calculate_carbon_liability country p h d1) := by
  have hA := annual_emissions_mt_pos country
  have hb1 : (0 : ℚ) < 1 + d1 := by linarith
  have hb2 : (0 : ℚ) < 1 + d2 := by linarith
  have hterm : ∀ (d : ℚ), 0 < 1 + d → ∀ t : ℕ,
      0 ≤ annual_emissions_mt country * (p * (103/100) ^ t) * 1000000
        / (1 + d) ^ t := by
    intro d hd t
    refine div_nonneg ?_ (pow_nonneg hd.le t)
    refine mul_nonneg (mul_nonneg hA.le ?_) (by norm_num)
    exact mul_nonneg hp (pow_nonneg (by norm_num) t)
  have hle : ∀ t ∈ Finset.range h,
      annual_emissions_mt country * (p * (103/100) ^ t) * 1000000
          / (1 + d2) ^ t
        ≤ annual_emissions_mt country * (p * (103/100) ^ t) * 1000000
          / (1 + d1) ^ t := by
    intro t _
    have hnum : 0 ≤ annual_emissions_mt country * (p * (103/100) ^ t)
        * 1000000 := by
      refine mul_nonneg (mul_nonneg hA.le ?_) (by norm_num)
      exact mul_nonneg hp (pow_nonneg (by norm_num) t)
    have hpow : (1 + d1) ^ t ≤ (1 + d2) ^ t :=
      pow_le_pow_left₀ hb1.le (by linarith) t
    exact div_le_div_of_nonneg_left hnum (pow_pos hb1 t) hpow
  refine ⟨?_, ?_, ?_⟩
  · rw [calculate_carbon_liability_eq_sum]
    refine div_nonneg (Finset.sum_nonneg fun t _ => hterm d1 hb1 t) (by norm_num)
  · rw [calculate_carbon_liability_eq_sum, calculate_carbon_liability_eq_sum]
    exact div_le_div_of_nonneg_right (Finset.sum_le_sum hle) (by norm_num)
  · intro hh hp0
    rw [calculate_carbon_liability_eq_sum, calculate_carbon_liability_eq_sum]
    refine div_lt_div_of_pos_right ?_ (by norm_num)
    refine Finset.sum_lt_sum hle ⟨1, Finset.mem_range.mpr (by omega), ?_⟩
    have hnum : 0 < annual_emissions_mt country * (p * (103/100) ^ 1)
        * 1000000 := by
      refine mul_pos (mul_pos hA ?_) (by norm_num)
      exact mul_pos hp0 (by norm_num)
    simp only [pow_one]
    rw [div_lt_div_iff₀ hb2 hb1]
    nlinarith [hnum]

/-- Closed witness for `liability_nonneg_and_antitone` at Singapore,
p = 59, h = 25, d1 = 0.05, d2 = 0.06. -/
theorem liability_nonneg_and_antitone_witness :
    0 ≤ calculate_carbon_liability Country.Singapore 59 25 (1/20) ∧
    calculate_carbon_liability Country.Singapore 59 25 (6/100)
      ≤ calculate_carbon_liability Country.Singapore 59 25 (1/20) ∧
    (2 ≤ 25 → (0 : ℚ) < 59 →
      calculate_carbon_liability Country.Singapore 59 25 (6/100)
        < calculate_carbon_liability Country.Singapore 59 25 (1/20)) :=
  liability_nonneg_and_antitone Country.Singapore 59 25 (1/20) (6/100)
    (by norm_num) (by norm_num) (by norm_num)

/-- C3 counterexample: `calculate_carbon_liability` performs no parameter
validation; called with horizonYears = 0 it answers 0 (the empty loop),
rather than failing with an InvalidParameter condition. -/
theorem liability_horizon_zero_returns_zero :
    calculate_carbon_liability Country.Singapore 59 0 (1/20) = 0 := by
  simp [calculate_carbon_liability]

/-- C3 (amended): `calculate_carbon_liability` performs no validation of
any parameter: for every country, price and discount rate, a call with
horizonYears = 0 returns 0 (it is never rejected), and out-of-range
discount rates are used as supplied. -/
theorem liability_no_validation (country : Country) (p d : ℚ) :
    calculate_carbon_liability country p 0 d = 0 := by
  simp [calculate_carbon_liability]

/-- One country's anchor prices in `simulate_price_convergence`
(app.py lines 535-541): the 2024, 2030 and 2045 entries of the
`trajectories` dict. -/
structure Traj where
  p2024 : ℚ
  p2030 : ℚ
  p2045 : ℚ
deriving DecidableEq, Repr

/-- The base trajectories dict of `simulate_price_convergence`
(app.py lines 535-541). -/
def base_trajectories : Country → Traj
  | .Singapore => ⟨59, 75, 95⟩
  | .Thailand => ⟨35, 50, 85⟩
  | .Indonesia => ⟨25, 35, 75⟩
  | .Malaysia => ⟨0, 15, 70⟩
  | .Vietnam => ⟨20, 40, 80⟩

/-- The scenario adjustment of `simulate_price_convergence` (app.py lines
543-552): "accelerated" multiplies the 2030 anchor by 1.2 and the 2045
anchor by 1.1, "delayed" by 0.8 and 0.9; any other string (the final
implicit else of the if/elif chain) leaves the base trajectories
untouched. -/
def scenario_trajectories (scenario : String) (c : Country) : Traj :=
  let t := base_trajectories c
  if scenario = "accelerated" then
    ⟨t.p2024, t.p2030 * (12/10), t.p2045 * (11/10)⟩
  else if scenario = "delayed" then
    ⟨t.p2024, t.p2030 * (8/10), t.p2045 * (9/10)⟩
  else t

/-- The per-year price of one country in `simulate_price_convergence`
(app.py lines 558-569): constant before 2024, linear interpolation to the
2030 anchor, linear interpolation to the 2045 anchor, then held flat. -/
def price_at (t : Traj) (year : ℤ) : ℚ :=
  if year ≤ 2024 then t.p2024
  else if year ≤ 2030 then
    t.p2024 + (t.p2030 - t.p2024) * (((year : ℚ) - 2024) / 6)
  else if year ≤ 2045 then
    t.p2030 + (t.p2045 - t.p2030) * (((year : ℚ) - 2030) / 15)
  else t.p2045

/-- The spread entry of a row (app.py lines 571-573):
`max(active_prices) / min(active_prices) if min(active_prices) > 0 else 0`.
Python's `max`/`min` raise ValueError on an empty sequence, modelled as
`none`; the `else 0` branch is the explicit `some 0`. -/
def spread_of (active : List ℚ) : Option ℚ :=
  match active.min?, active.max? with
  | some mn, some mx => some (if 0 < mn then mx / mn else 0)
  | _, _ => none

/-- One row of the result DataFrame of `simulate_price_convergence`
(app.py lines 554-574): the year, the five country prices in the dict's
insertion order, and the spread. -/
structure Row where
  year : ℤ
  prices : List ℚ
  spread : Option ℚ
deriving DecidableEq, Repr

/-- `years = list(range(2024, 2051))` (app.py line 532). -/
def years_range : List ℤ :=
  (List.range 27).map (fun i => 2024 + (i : ℤ))

/-- `simulate_price_convergence` (app.py lines 530-576): for each year from
2024 to 2050, each country's interpolated price under the scenario-adjusted
trajectories, plus the spread across the active (strictly positive)
prices. -/
def simulate_price_convergence (scenario : String) : List Row :=
  years_range.map (fun y =>
    let prices := country_list.map
      (fun c => price_at (scenario_trajectories scenario c) y)
    let active := prices.filter (fun v => 0 < v)
    { year := y, prices := prices, spread := spread_of active })

/-- The `active_prices` list of one row (app.py line 572). -/
def active_prices (r : Row) : List ℚ :=
  r.prices.filter (fun v => 0 < v)

/-- The price-spread entry of `get_divergence_metrics`: a finite ratio, or
the `float('inf')` sentinel of app.py line 443. -/
inductive PriceSpread
  | finite (q : ℚ)
  | infinite
deriving DecidableEq, Repr

/-- The result dict of `get_divergence_metrics` (app.py lines 441-446). -/
structure DivergenceMetrics where
  timeline_spread : ℤ
  price_spread : PriceSpread
  max_price : ℚ
  min_price : ℚ
deriving DecidableEq, Repr

/-- `get_divergence_metrics` (app.py lines 436-446), with the country
records it reads from `COUNTRY_DATA.values()` made an explicit parameter.
`prices` keeps only the strictly positive 2024 carbon prices; Python's
`max`/`min` raise ValueError on an empty sequence, so a call where `years`
or `prices` is empty is modelled as `none`. -/
def get_divergence_metrics_from (ds : List CountryData) : Option DivergenceMetrics :=
  let prices := (ds.map (fun d => d.carbon_price_2024)).filter (fun p => 0 < p)
  let years := ds.map (fun d => d.ets_launch_year)
  if prices.isEmpty || years.isEmpty then none
  else some
    { timeline_spread := (years.max?).getD 0 - (years.min?).getD 0,
      price_spread :=
        if 0 < (prices.min?).getD 0 then
          .finite ((prices.max?).getD 0 / (prices.min?).getD 0)
        else .infinite,
      max_price := (prices.max?).getD 0,
      min_price := ((prices.filter (fun p => 0 < p)).min?).getD 0 }

/-- `get_divergence_metrics` as called in app.py: over the embedded
`COUNTRY_DATA` records. -/
def get_divergence_metrics : Option DivergenceMetrics :=
  get_divergence_metrics_from (country_list.map COUNTRY_DATA)

/-- The per-phase progress computation of `get_phase_progress`
(app.py lines 508-516): Python's `current_year < start`,
`current_year >= end`, else interpolate. -/
def phase_progress_status (start finish current_year : ℤ) : ℚ × String :=
  if current_year < start then (0, "Not Started")
  else if finish ≤ current_year then (100, "Complete")
  else ((((current_year - start : ℤ) : ℚ) / ((finish - start : ℤ) : ℚ)) * 100,
        "In Progress")

/-- One entry of the list returned by `get_phase_progress`
(app.py lines 518-525). -/
structure PhaseResult where
  phase : String
  name : String
  start : ℤ
  finish : ℤ
  progress : ℚ
  status : String
deriving DecidableEq, Repr

/-- `get_phase_progress` (app.py lines 498-527) over the three hardcoded
phases Phase 1 [2025, 2028), Phase 2 [2028, 2035), Phase 3 [2035, 2045). -/
def get_phase_progress (current_year : ℤ) : List PhaseResult :=
  [ { phase := "Phase 1", name := "Foundation", start := 2025, finish := 2028,
      progress := (phase_progress_status 2025 2028 current_year).1,
      status := (phase_progress_status 2025 2028 current_year).2 },
    { phase := "Phase 2", name := "Convergence", start := 2028, finish := 2035,
      progress := (phase_progress_status 2028 2035 current_year).1,
      status := (phase_progress_status 2028 2035 current_year).2 },
    { phase := "Phase 3", name := "Full Integration", start := 2035,
      finish := 2045,
      progress := (phase_progress_status 2035 2045 current_year).1,
      status := (phase_progress_status 2035 2045 current_year).2 } ]

/-- The result dict of `calculate_integration_roi` (app.py lines 489-495). -/
structure ROIMetrics where
  total_investment : ℚ
  total_benefits : ℚ
  benefit_cost_ratio : ℚ
  annual_savings : ℚ
  payback_years : ℚ
deriving DecidableEq, Repr

/-- The `amount_m` column of `INVESTMENT_REQUIREMENTS`
(app.py lines 293-299). -/
def investment_amounts : List ℚ := [85, 45, 35, 40, 24]

/-- `calculate_integration_roi` (app.py lines 475-495). -/
def calculate_integration_roi : ROIMetrics :=
  let total_investment := investment_amounts.sum
  let annual_operational_savings : ℚ := 18
  let annual_market_efficiency : ℚ := 50
  let climate_benefits_npv : ℚ := 200
  let years : ℚ := 10
  let total_benefits :=
    (annual_operational_savings + annual_market_efficiency) * years
      + climate_benefits_npv
  { total_investment := total_investment,
    total_benefits := total_benefits,
    benefit_cost_ratio := total_benefits / total_investment,
    annual_savings := annual_operational_savings + annual_market_efficiency,
    payback_years :=
      total_investment / (annual_operational_savings + annual_market_efficiency) }

/-- An unknown scenario string falls through the if/elif chain and leaves
the base trajectories untouched. -/
lemma scenario_trajectories_of_unknown (s : String) (h1 : s ≠ "accelerated")
    (h2 : s ≠ "delayed") (c : Country) :
    scenario_trajectories s c = base_trajectories c := by
  simp [scenario_trajectories, h1, h2]

/-- "baseline" is not one of the two scaled scenarios. -/
lemma scenario_trajectories_baseline (c : Country) :
    scenario_trajectories "baseline" c = base_trajectories c :=
  scenario_trajectories_of_unknown "baseline" (by decide) (by decide) c

/-- The "accelerated" branch scales the 2030 anchor by 1.2 and the 2045
anchor by 1.1, once. -/
lemma scenario_trajectories_accelerated (c : Country) :
    scenario_trajectories "accelerated" c
      = ⟨(base_trajectories c).p2024, (base_trajectories c).p2030 * (12/10),
         (base_trajectories c).p2045 * (11/10)⟩ := by
  simp [scenario_trajectories]

/-- C4: under scenario "baseline" each country's price path is exactly the
spec's piecewise-linear form — constant `startPrice` up to 2024, linear
interpolation between the (2024, startPrice) and (2030, midPrice) anchors,
linear interpolation between (2030, midPrice) and (2045, endPrice), then
constant `endPrice` — and the Singapore path with anchors (2024, 59) and
(2030, 75) evaluates to 59 at 2024, 75 at 2030 and the linear midpoint 67
at 2027. -/
theorem trajectory_piecewise_linear :
    (∀ (c : Country) (Y : ℤ),
      (Y ≤ 2024 → price_at (scenario_trajectories "baseline" c) Y
         = (scenario_trajectories "baseline" c).p2024) ∧
      (2024 < Y → Y ≤ 2030 → price_at (scenario_trajectories "baseline" c) Y
         = (scenario_trajectories "baseline" c).p2024
           + ((scenario_trajectories "baseline" c).p2030
              - (scenario_trajectories "baseline" c).p2024)
             * (((Y : ℚ) - 2024) / (2030 - 2024))) ∧
      (2030 < Y → Y ≤ 2045 → price_at (scenario_trajectories "baseline" c) Y
         = (scenario_trajectories "baseline" c).p2030
           + ((scenario_trajectories "baseline" c).p2045
              - (scenario_trajectories "baseline" c).p2030)
             * (((Y : ℚ) - 2030) / (2045 - 2030))) ∧
      (2045 < Y → price_at (scenario_trajectories "baseline" c) Y
         = (scenario_trajectories "baseline" c).p2045)) ∧
    price_at (scenario_trajectories "baseline" Country.Singapore) 2024 = 59 ∧
    price_at (scenario_trajectories "baseline" Country.Singapore) 2030 = 75 ∧
    price_at (scenario_trajectories "baseline" Country.Singapore) 2027 = 67 := by
  refine ⟨fun c Y => ⟨?_, ?_, ?_, ?_⟩, ?_, ?_, ?_⟩
  · intro h
    rw [price_at, if_pos h]
  · intro h1 h2
    rw [price_at, if_neg (by omega), if_pos h2]
    norm_num
  · intro h1 h2
    rw [price_at, if_neg (by omega), if_neg (by omega), if_pos h2]
    norm_num
  · intro h
    rw [price_at, if_neg (by omega), if_neg (by omega), if_neg (by omega)]
  · norm_num [price_at, scenario_trajectories_baseline, base_trajectories]
  · norm_num [price_at, scenario_trajectories_baseline, base_trajectories]
  · norm_num [price_at, scenario_trajectories_baseline, base_trajectories]

/-- Closed witness for `trajectory_piecewise_linear`: the interpolation
branch applied at Singapore in 2027. -/
theorem trajectory_piecewise_linear_witness :
    price_at (scenario_trajectories "baseline" Country.Singapore) 2027
      = (scenario_trajectories "baseline" Country.Singapore).p2024
        + ((scenario_trajectories "baseline" Country.Singapore).p2030
           - (scenario_trajectories "baseline" Country.Singapore).p2024)
          * ((((2027 : ℤ) : ℚ) - 2024) / (2030 - 2024)) :=
  (trajectory_piecewise_linear.1 Country.Singapore 2027).2.1 (by decide)
    (by decide)

/-- If a trajectory's three anchors are positive at 2030 and 2045, scaling
the 2030 anchor by 1.2 and the 2045 anchor by 1.1 strictly raises the
interpolated price at every year after 2024. -/
lemma price_at_scaled_gt (t : Traj) (hm : 0 < t.p2030) (he : 0 < t.p2045)
    (Y : ℤ) (hY : 2024 < Y) :
    price_at t Y
      < price_at ⟨t.p2024, t.p2030 * (12/10), t.p2045 * (11/10)⟩ Y := by
  have hq : (2024 : ℚ) < (Y : ℚ) := by exact_mod_cast hY
  unfold price_at
  dsimp only
  split_ifs with h1 h2 h3
  · exact absurd h1 (by omega)
  · have hq2 : ((Y : ℚ)) ≤ 2030 := by exact_mod_cast h2
    have hu : 0 < ((Y : ℚ) - 2024) / 6 := by linarith
    nlinarith [mul_pos hm hu]
  · have hq2 : (2030 : ℚ) < (Y : ℚ) := by
      exact_mod_cast (by omega : (2030 : ℤ) < Y)
    have hq3 : ((Y : ℚ)) ≤ 2045 := by exact_mod_cast h3
    have hv : 0 < ((Y : ℚ) - 2030) / 15 := by linarith
    have hv1 : ((Y : ℚ) - 2030) / 15 ≤ 1 := by linarith
    nlinarith [mul_nonneg hm.le (by linarith : (0:ℚ) ≤ 1 - ((Y : ℚ) - 2030) / 15),
      mul_pos he hv]
  · linarith

/-- C5: scenario "accelerated" scales the 2030 and 2045 anchors by the
fixed factors 1.2 and 1.1 exactly once, before interpolation; consequently
the accelerated price equals the baseline price up to 2024 and is strictly
above it at every later year, for every country — in particular at 2030
for Singapore. -/
theorem accelerated_strictly_above_baseline :
    (∀ c : Country, scenario_trajectories "accelerated" c
       = ⟨(base_trajectories c).p2024, (base_trajectories c).p2030 * (12/10),
          (base_trajectories c).p2045 * (11/10)⟩) ∧
    (∀ (c : Country) (Y : ℤ),
      (Y ≤ 2024 → price_at (scenario_trajectories "accelerated" c) Y
         = price_at (scenario_trajectories "baseline" c) Y) ∧
      (2024 < Y → price_at (scenario_trajectories "baseline" c) Y
         < price_at (scenario_trajectories "accelerated" c) Y)) ∧
    price_at (scenario_trajectories "baseline" Country.Singapore) 2030
      < price_at (scenario_trajectories "accelerated" Country.Singapore)
          2030 := by
  have hmain : ∀ (c : Country) (Y : ℤ),
      (Y ≤ 2024 → price_at (scenario_trajectories "accelerated" c) Y
         = price_at (scenario_trajectories "baseline" c) Y) ∧
      (2024 < Y → price_at (scenario_trajectories "baseline" c) Y
         < price_at (scenario_trajectories "accelerated" c) Y) := by
    intro c Y
    rw [scenario_trajectories_accelerated, scenario_trajectories_baseline]
    constructor
    · intro h
      rw [price_at, price_at, if_pos h, if_pos h]
    · intro h
      exact price_at_scaled_gt (base_trajectories c)
        (by cases c <;> norm_num [base_trajectories])
        (by cases c <;> norm_num [base_trajectories]) Y h
  exact ⟨fun c => scenario_trajectories_accelerated c, hmain,
    (hmain Country.Singapore 2030).2 (by decide)⟩

/-- Closed witness for `accelerated_strictly_above_baseline` at Singapore
in 2027. -/
theorem accelerated_strictly_above_baseline_witness :
    price_at (scenario_trajectories "baseline" Country.Singapore) 2027
      < price_at (scenario_trajectories "accelerated" Country.Singapore)
          2027 :=
  (accelerated_strictly_above_baseline.2.1 Country.Singapore 2027).2
    (by decide)

/-- C6 counterexample: an unknown scenario name is not rejected — the
simulation with scenario "frobnicate" returns exactly the baseline
result. -/
theorem unknown_scenario_not_an_error :
    simulate_price_convergence "frobnicate"
      = simulate_price_convergence "baseline" := by
  unfold simulate_price_convergence
  refine congrArg (years_range.map ·) (funext fun y => ?_)
  have h : ∀ c : Country, scenario_trajectories "frobnicate" c
      = scenario_trajectories "baseline" c := fun c => by
    rw [scenario_trajectories_of_unknown "frobnicate" (by decide) (by decide),
      scenario_trajectories_baseline]
  simp only [h]

/-- C6 (amended): `simulate_price_convergence` validates nothing — its year
range is fixed internally (2024..2050, never empty or unordered), and any
scenario name other than "accelerated" and "delayed" is silently treated as
baseline rather than reported as an error. -/
theorem unknown_scenario_defaults_to_baseline (s : String)
    (h1 : s ≠ "accelerated") (h2 : s ≠ "delayed") :
    simulate_price_convergence s
      = simulate_price_convergence "baseline" := by
  unfold simulate_price_convergence
  refine congrArg (years_range.map ·) (funext fun y => ?_)
  have h : ∀ c : Country, scenario_trajectories s c
      = scenario_trajectories "baseline" c := fun c => by
    rw [scenario_trajectories_of_unknown s h1 h2,
      scenario_trajectories_baseline]
  simp only [h]

/-- Closed witness for `unknown_scenario_defaults_to_baseline` at the
scenario name "bogus". -/
theorem unknown_scenario_defaults_to_baseline_witness :
    simulate_price_convergence "bogus"
      = simulate_price_convergence "baseline" :=
  unknown_scenario_defaults_to_baseline "bogus" (by decide) (by decide)

/-- C7 counterexample: on records where no entity has a positive current
price, `get_divergence_metrics_from` does not produce the infinite
sentinel — the `max()`/`min()` calls raise on the empty filtered list
(modelled `none`), because the price list is pre-filtered to positive
values and the `float('inf')` guard is unreachable. -/
theorem divergence_no_positive_price_crashes :
    get_divergence_metrics_from [⟨346, 71/100, 0, 40, 2028, 45⟩] = none := by
  norm_num [get_divergence_metrics_from]

/-- C7 (amended): on the embedded country data (positive prices
{59, 35, 25, 20}, launch years {2019, 2025, 2023, 2030, 2028}),
`get_divergence_metrics` returns timeline_spread 11 = 2030 - 2019,
max_price 59, min_price 20, and the finite spread 59/20 = 2.95; and for
every record list with no positive price the function raises (max/min of
an empty sequence, modelled `none`) rather than returning the infinite
sentinel. -/
theorem divergence_metrics_on_embedded_data :
    get_divergence_metrics
      = some ⟨11, .finite (59/20), 59, 20⟩ ∧
    (59 : ℚ) / 20 = 295/100 ∧
    (∀ ds : List CountryData,
      (ds.map (fun d => d.carbon_price_2024)).filter (fun p => 0 < p) = [] →
      get_divergence_metrics_from ds = none) := by
  refine ⟨?_, by norm_num, ?_⟩
  · norm_num [get_divergence_metrics, get_divergence_metrics_from,
      country_list, COUNTRY_DATA, max_def, min_def]
  · intro ds h
    simp only [get_divergence_metrics_from, h]
    simp

/-- Closed witness for `divergence_metrics_on_embedded_data`: a single
record with the Malaysia-style zero price makes the filtered price list
empty, and the function yields `none`. -/
theorem divergence_metrics_on_embedded_data_witness :
    get_divergence_metrics_from [⟨612, 80/100, 0, 15, 2030, 30⟩] = none :=
  divergence_metrics_on_embedded_data.2.2 [⟨612, 80/100, 0, 15, 2030, 30⟩]
    (by norm_num)

/-- C8: for every phase [start, end) with start < end and every current
year, the progress is 0 ("Not Started") before start, 100 ("Complete")
from end on, and (currentYear - start)/(end - start) × 100 ("In Progress")
in between; concretely, Phase 1 [2025, 2028) is at 100/3 ≈ 33.33
("In Progress") in 2026 and at 100 ("Complete") in 2029. -/
theorem phase_progress_spec :
    (∀ start finish current_year : ℤ, start < finish →
      (current_year < start →
        phase_progress_status start finish current_year
          = (0, "Not Started")) ∧
      (finish ≤ current_year →
        phase_progress_status start finish current_year
          = (100, "Complete")) ∧
      (start ≤ current_year → current_year < finish →
        phase_progress_status start finish current_year
          = ((((current_year - start : ℤ) : ℚ)
              / ((finish - start : ℤ) : ℚ)) * 100, "In Progress"))) ∧
    (get_phase_progress 2026).head?
      = some ⟨"Phase 1", "Foundation", 2025, 2028, 100/3, "In Progress"⟩ ∧
    (get_phase_progress 2029).head?
      = some ⟨"Phase 1", "Foundation", 2025, 2028, 100, "Complete"⟩ := by
  refine ⟨fun start finish current_year hsf => ⟨?_, ?_, ?_⟩, ?_, ?_⟩
  · intro h
    rw [phase_progress_status, if_pos h]
  · intro h
    rw [phase_progress_status, if_neg (by omega), if_pos h]
  · intro h1 h2
    rw [phase_progress_status, if_neg (by omega), if_neg (by omega)]
  · norm_num [get_phase_progress, phase_progress_status]
  · norm_num [get_phase_progress, phase_progress_status]

/-- Closed witness for `phase_progress_spec`: the in-progress branch at
phase (2025, 2028) and current year 2026. -/
theorem phase_progress_spec_witness :
    phase_progress_status 2025 2028 2026
      = ((((2026 - 2025 : ℤ) : ℚ) / ((2028 - 2025 : ℤ) : ℚ)) * 100,
         "In Progress") :=
  (phase_progress_spec.1 2025 2028 2026 (by decide)).2.2 (by decide)
    (by decide)

/-- C9: `calculate_integration_roi` returns totalInvestment
85 + 45 + 35 + 40 + 24 = 229, totalBenefits (18 + 50) × 10 + 200 = 880
(undiscounted), benefit-cost ratio 880/229 ≈ 3.84 and payback
229/68 ≈ 3.37 years. -/
theorem integration_roi_values :
    calculate_integration_roi
      = { total_investment := 85 + 45 + 35 + 40 + 24,
          total_benefits := (18 + 50) * 10 + 200,
          benefit_cost_ratio := 880 / 229,
          annual_savings := 18 + 50,
          payback_years := 229 / 68 } ∧
    calculate_integration_roi.total_investment = 229 ∧
    calculate_integration_roi.total_benefits = 880 := by
  norm_num [calculate_integration_roi, investment_amounts]

/-- A trajectory with positive anchors has a positive interpolated price
at every year: each branch of `price_at` is a convex combination of two
positive anchors (or one of them). -/
lemma price_at_pos (t : Traj) (h24 : 0 < t.p2024) (h30 : 0 < t.p2030)
    (h45 : 0 < t.p2045) (Y : ℤ) : 0 < price_at t Y := by
  unfold price_at
  split_ifs with h1 h2 h3
  · exact h24
  · have hq1 : (2024 : ℚ) < (Y : ℚ) := by
      exact_mod_cast (by omega : (2024 : ℤ) < Y)
    have hq2 : ((Y : ℚ)) ≤ 2030 := by exact_mod_cast h2
    have hu : 0 < ((Y : ℚ) - 2024) / 6 := by linarith
    have hu1 : ((Y : ℚ) - 2024) / 6 ≤ 1 := by linarith
    nlinarith [mul_pos h30 hu,
      mul_nonneg h24.le (by linarith : (0:ℚ) ≤ 1 - ((Y : ℚ) - 2024) / 6)]
  · have hq1 : (2030 : ℚ) < (Y : ℚ) := by
      exact_mod_cast (by omega : (2030 : ℤ) < Y)
    have hq2 : ((Y : ℚ)) ≤ 2045 := by exact_mod_cast h3
    have hv : 0 < ((Y : ℚ) - 2030) / 15 := by linarith
    have hv1 : ((Y : ℚ) - 2030) / 15 ≤ 1 := by linarith
    nlinarith [mul_pos h45 hv,
      mul_nonneg h30.le (by linarith : (0:ℚ) ≤ 1 - ((Y : ℚ) - 2030) / 15)]
  · exact h45

/-- Under every scenario string, Singapore's three anchors stay
positive. -/
lemma scenario_singapore_pos (s : String) :
    0 < (scenario_trajectories s Country.Singapore).p2024 ∧
    0 < (scenario_trajectories s Country.Singapore).p2030 ∧
    0 < (scenario_trajectories s Country.Singapore).p2045 := by
  unfold scenario_trajectories
  dsimp only
  split_ifs <;> norm_num [base_trajectories]

/-- C10: for each of the three scenario names and every row of the
simulation output, the active (strictly positive) price list is non-empty,
so the stored spread is `max(active)/min(active)` — the `else 0` fallback
is never taken — and that ratio is at least 1. -/
theorem spread_well_defined :
    ∀ s ∈ (["baseline", "accelerated", "delayed"] : List String),
      ∀ r ∈ simulate_price_convergence s,
        active_prices r ≠ [] ∧
        ∃ mx mn, (active_prices r).max? = some mx ∧
          (active_prices r).min? = some mn ∧
          0 < mn ∧ mn ≤ mx ∧ r.spread = some (mx / mn) ∧ 1 ≤ mx / mn := by
  intro s _hs r hr
  rw [simulate_price_convergence, List.mem_map] at hr
  obtain ⟨y, _hy, rfl⟩ := hr
  dsimp only
  simp only [active_prices]
  have hsg := scenario_singapore_pos s
  have hpos : 0 < price_at (scenario_trajectories s Country.Singapore) y :=
    price_at_pos _ hsg.1 hsg.2.1 hsg.2.2 y
  have hmemP : price_at (scenario_trajectories s Country.Singapore) y
      ∈ country_list.map (fun c => price_at (scenario_trajectories s c) y) :=
    List.mem_map_of_mem _ (by decide : Country.Singapore ∈ country_list)
  have hmemA : price_at (scenario_trajectories s Country.Singapore) y
      ∈ (country_list.map
          (fun c => price_at (scenario_trajectories s c) y)).filter
          (fun v => 0 < v) :=
    List.mem_filter.mpr ⟨hmemP, by simpa using hpos⟩
  have hne := List.ne_nil_of_mem hmemA
  refine ⟨hne, ?_⟩
  cases hmax : (((country_list.map
      (fun c => price_at (scenario_trajectories s c) y)).filter
      (fun v => 0 < v))).max? with
  | none => exact absurd (List.max?_eq_none_iff.mp hmax) hne
  | some mx =>
  cases hmin : (((country_list.map
      (fun c => price_at (scenario_trajectories s c) y)).filter
      (fun v => 0 < v))).min? with
  | none => exact absurd (List.min?_eq_none_iff.mp hmin) hne
  | some mn =>
  have hmnA := List.min?_mem (fun a b => min_choice a b) hmin
  have hmxA := List.max?_mem (fun a b => max_choice a b) hmax
  have hmn0 : 0 < mn := by
    have h := (List.mem_filter.mp hmnA).2
    simpa using h
  have hmnmx : mn ≤ mx :=
    (List.le_min?_iff (fun a b c => le_min_iff) hmin).mp le_rfl mx hmxA
  refine ⟨mx, mn, rfl, rfl, hmn0, hmnmx, ?_, ?_⟩
  · simp only [spread_of, hmax, hmin, if_pos hmn0]
  · rw [le_div_iff₀ hmn0]
    linarith

/-- Closed witness for `spread_well_defined`: the first row of the
baseline simulation. -/
theorem spread_well_defined_witness :
    active_prices ((simulate_price_convergence "baseline").head
        (by decide)) ≠ [] ∧
    ∃ mx mn,
      (active_prices ((simulate_price_convergence "baseline").head
          (by decide))).max? = some mx ∧
      (active_prices ((simulate_price_convergence "baseline").head
          (by decide))).min? = some mn ∧
      0 < mn ∧ mn ≤ mx ∧
      ((simulate_price_convergence "baseline").head (by decide)).spread
        = some (mx / mn) ∧ 1 ≤ mx / mn :=
  spread_well_defined "baseline" (by decide) _ (List.head_mem _)

end AseanCarbon
